import Mathlib

/-!
# Verification of the mlogpp back-end against its specification

Shallow embedding of the mlogpp compiler back-end (Python) in Lean 4:

* `Mlogpp.Ty`, `Mlogpp.MVal` — the bitset type system and tagged values
  (`src/mlogpp/value.py`).
* `Mlogpp.exprGet` and friends — the code-generation contracts of the
  rewritten AST nodes (`src/mlogpp/node_rewrite.py`).
* `Mlogpp.precalcLine` / `precalcOptimize` — the constant-folding optimizer
  pass (`src/mlogpp/generator.py`, `Generator._precalc_optimize` and the
  `PRECALC` table).
* `Mlogpp.postStrip` / `postElide` — steps of `Generator.postprocess`.
* `Mlogpp.linkerLink` — the label/macro resolver (`src/mlogpp/linker.py`).

Machine floats of the host are modelled as rationals under a conservative
IEEE-754 representability guard (`floatRep`): the constant folder commits to
a value only when the parsed literals and the exact result are certified
representable as doubles — there correctly-rounded host arithmetic produces
exactly that rational — and pushes every other case (rounding above the
53-bit mantissa, transcendental functions, platform `pow`) into an explicit
`unmodeled` constructor, so that no theorem asserts an output the program
does not produce.
-/

namespace Mlogpp

/-! ## Types (`value.py`, `class Type(enum.Flag)`)

A `Type` is a bitmask over eleven primitive kinds.  `Type.ANY` is the union
of all bits.  Python's `enum.Flag` membership test `a in b` (used throughout
`node_rewrite.py` as `value.type not in var.type`) holds iff every bit of
`a` is also set in `b`, i.e. it is a subset test, not an intersection test. -/

structure Ty where
  val : Nat
deriving DecidableEq, Repr

def Ty.STR : Ty := ⟨1⟩
def Ty.NUM : Ty := ⟨2⟩
def Ty.NULL : Ty := ⟨4⟩
def Ty.BLOCK : Ty := ⟨8⟩
def Ty.UNIT : Ty := ⟨16⟩
def Ty.TEAM : Ty := ⟨32⟩
def Ty.UNIT_TYPE : Ty := ⟨64⟩
def Ty.ITEM_TYPE : Ty := ⟨128⟩
def Ty.BLOCK_TYPE : Ty := ⟨256⟩
def Ty.LIQUID_TYPE : Ty := ⟨512⟩
def Ty.CONTROLLER : Ty := ⟨1024⟩
def Ty.ANY : Ty := ⟨2047⟩

/-- Bitwise intersection of two type flags (`Type.__and__`). -/
def tyAnd (a b : Ty) : Ty := ⟨a.val &&& b.val⟩

/-- Bitwise union of two type flags (`Type.__or__`). -/
def tyOr (a b : Ty) : Ty := ⟨a.val ||| b.val⟩

/-- Python `enum.Flag` membership `a in b`: all bits of `a` lie in `b`. -/
def tyIn (a b : Ty) : Bool := a.val &&& b.val == a.val

/-- The empty flag (`Type(0)`), result of disjoint intersections. -/
def Ty.zero : Ty := ⟨0⟩

/-! ## Values (`value.py`)

A discriminated union: `StringValue`, `NumberValue`, `NullValue`,
`BlockValue`, `VariableValue(type, name, const)`.  Number payloads are
modelled as integers — the claims only ever push integer-valued literals
through nodes. -/

inductive MVal where
  | str (s : String)
  | num (n : Int)
  | null
  | block (name : String)
  | var (t : Ty) (name : String) (const : Bool)
deriving DecidableEq, Repr

/-- The `type` field each `Value` carries (`Value.__init__` in each class). -/
def MVal.type : MVal → Ty
  | .str _ => Ty.STR
  | .num _ => Ty.NUM
  | .null => Ty.NULL
  | .block _ => Ty.BLOCK
  | .var t _ _ => t

/-- `Value.__str__` for the variants used by code generation. -/
def MVal.render : MVal → String
  | .str s => s
  | .num n => toString n
  | .null => "null"
  | .block n => n
  | .var _ n _ => n

/-! ## Instructions (`instruction.py` is not in the sources; shape taken from
its uses in `node_rewrite.py` and `linker.py`)

An `MInstruction` is an opcode plus an ordered operand list; operands are
`Value`s or raw tokens (strings / integer literals as used at call sites,
e.g. `MInstruction(MInstructionType.OP, ["sub", tmpv, 0, tmpv])`). -/

inductive MOperand where
  | val (v : MVal)
  | lit (s : String)
  | int (n : Int)
deriving DecidableEq, Repr

/-- Pseudo-instructions (`MppInstructionLabel`, `MppInstructionJump`,
`MppInstructionOJump`) alongside plain `MInstruction`s. -/
inductive Ins where
  | m (op : String) (params : List MOperand)
  | label (name : String)
  | jump (target : String)
  | ojump (target : String) (left : MOperand) (o : String) (right : MOperand)
deriving DecidableEq, Repr

/-! ## Scopes

`scope.py` is absent from the sources; only its call sites are visible. -/

/-- A scope binding: either a `VariableValue` or a `Function` signature
(`function.py`: name, ordered parameters, return type; the specifier and
node back-reference play no role in the claims). -/
inductive Binding where
  | bvar (v : MVal)
  | bfun (name : String) (params : List (String × Ty)) (ret : Ty)
deriving DecidableEq, Repr

/-- Modelled from the spec: the `Scopes` stack of `scope.py` is not in the
sources.  Per §3/§4.2 it is an ordered stack of frames, each mapping a local
identifier to a bound `Variable` or `Function`; `Scopes.get` searches frames
innermost→outermost and returns the binding or "not found". -/
def scopesGet (scopes : List (List (String × Binding))) (name : String) : Option Binding :=
  match scopes with
  | [] => none
  | frame :: rest =>
    match frame.lookup name with
    | some b => some b
    | none => scopesGet rest name

/-- Modelled from the spec: `Scopes.add` inserts a binding into the current
(innermost) frame (§4.2). -/
def scopesAdd (scopes : List (List (String × Binding))) (name : String) (b : Binding) :
    List (List (String × Binding)) :=
  match scopes with
  | [] => [[(name, b)]]
  | frame :: rest => ((name, b) :: frame) :: rest

/-! ## Errors (`error.py` call sites)

The error kinds raised by the embedded code paths.  `hostCrash` marks a
place where the Python code would raise an unhandled host exception
(`KeyError`, `TypeError`, …) rather than a compiler error. -/

inductive GErr where
  | incompatibleTypes (found expected : Ty)
  | alreadyDefinedVar (name : String)
  | undefinedVariable (name : String)
  | undefinedFunction (name : String)
  | writeToConst (name : String)
  | hostCrash
deriving DecidableEq, Repr

instance {ε α : Type} [DecidableEq ε] [DecidableEq α] : DecidableEq (Except ε α) := fun a b =>
  match a, b with
  | .error e, .error f =>
    if h : e = f then .isTrue (by rw [h]) else .isFalse (by simp [h])
  | .error _, .ok _ => .isFalse (by simp)
  | .ok _, .error _ => .isFalse (by simp)
  | .ok a, .ok b =>
    if h : a = b then .isTrue (by rw [h]) else .isFalse (by simp [h])

/-- Whether a fallible generation step succeeded. -/
def isOk {ε α : Type} : Except ε α → Bool
  | .ok _ => true
  | .error _ => false

/-! ## Character-list string primitives

The embedding manipulates instruction text exactly as the Python code does
(split on a separator, prefix tests, strip).  These helpers are structural
recursions over `String.data` so that concrete runs reduce inside the
kernel; each mirrors the corresponding Python `str` method. -/

/-- Auxiliary for `strSplit`: accumulate the current field (reversed). -/
def splitChAux (sep : Char) : List Char → List Char → List (List Char)
  | [], acc => [acc.reverse]
  | c :: cs, acc =>
    if c == sep then acc.reverse :: splitChAux sep cs []
    else splitChAux sep cs (c :: acc)

/-- Python `s.split(sep)` for a one-character separator. -/
def strSplit (s : String) (sep : Char) : List String :=
  (splitChAux sep s.data []).map (fun cs => ⟨cs⟩)

/-- Python `s.startswith(p)`. -/
def strStartsWith (s p : String) : Bool := p.data.isPrefixOf s.data

/-- Python's whitespace class for `str.strip()` / `str.split()`. -/
def isWs (c : Char) : Bool := c == ' ' || c == '\t' || c == '\n' || c == '\r'

/-- Python `s.strip()`. -/
def strTrim (s : String) : String :=
  ⟨((s.data.dropWhile isWs).reverse.dropWhile isWs).reverse⟩

/-- Python `s[1:]`. -/
def strDrop1 (s : String) : String := ⟨s.data.drop 1⟩

/-- Python `sep.join(ls)`. -/
def strJoin (sep : String) : List String → String
  | [] => ""
  | [s] => s
  | s :: rest => s ++ sep ++ strJoin sep rest

/-! ## Expression nodes (`node_rewrite.py`)

The expression fragment needed by the claims: leaf value nodes
(`NumberValueNode`, `StringValueNode`, `ContentValueNode` — all return their
value with no code), `BinaryOpNode` and `UnaryOpNode`.  Evaluation threads
the temporary-variable counter. -/

inductive Expr where
  | value (v : MVal)
  | binary (left : Expr) (right : List (String × Expr))
  | unary (o : String) (operand : Expr)

/-- `BinaryOpNode.OPERATORS`: operator token → target opcode. -/
def OPERATORS : String → Option String
  | "+" => some "add"
  | "-" => some "sub"
  | "*" => some "mul"
  | "/" => some "div"
  | "//" => some "idiv"
  | "%" => some "mod"
  | "**" => some "pow"
  | "==" => some "equal"
  | "!=" => some "notEqual"
  | "&&" => some "land"
  | "||" => some "or"
  | "<" => some "lessThan"
  | "<=" => some "lessThanEq"
  | ">" => some "greaterThan"
  | ">=" => some "greaterThanEq"
  | "===" => some "strictEqual"
  | "<<" => some "shl"
  | ">>" => some "shr"
  | "|" => some "or"
  | "&" => some "and"
  | "^" => some "xor"
  | _ => none

/-- `BinaryOpNode.EQUALITY`: the three equality-class operator tokens. -/
def EQUALITY (o : String) : Bool := o == "==" || o == "!=" || o == "==="

/-- Modelled from the spec: `Gen.temp_var` (the `Gen` module is not in the
sources).  Per §9 a temporary is "named deterministically by an incrementing
counter"; the generated names follow the visible `__tmpN` convention of
`generator.py`.  Returns the fresh `VariableValue` and the next counter. -/
def tempVar (t : Ty) (n : Nat) : MVal × Nat :=
  (MVal.var t ("__tmp" ++ toString (n + 1)) false, n + 1)

/-- First loop of `BinaryOpNode.get`: when the first operand's type is not
inside `NUM`, scan the (operator, operand) pairs in order and raise
`IncompatibleTypes` at the first operator that is not equality-class. -/
def binFirstCheck (found : Ty) : List (String × Expr) → Except GErr Unit
  | [] => .ok ()
  | (o, _) :: rest =>
    if EQUALITY o then binFirstCheck found rest
    else .error (.incompatibleTypes found Ty.NUM)

mutual

/-- `Node.get` for the embedded expression fragment, from
`node_rewrite.py`.  Returns the instructions, the produced value and the
updated temporary counter. -/
def exprGet : Expr → Nat → Except GErr (List Ins × MVal × Nat)
  | .value v, n => .ok ([], v, n)
  | .binary left right, n => do
    let (code, value, n) ← exprGet left n
    -- `if value.type not in Type.NUM and len(self.right) > 0: ...`
    if !(tyIn value.type Ty.NUM) && right.length > 0 then
      binFirstCheck value.type right
    -- `if self.right is not None and len(self.right) > 0:`
    if right.length > 0 then
      let (tmpv, n) := tempVar Ty.NUM n
      -- `if tmpv != value` compares object identities in Python and the
      -- fresh temporary is always a distinct object, so the SET is
      -- unconditional.
      let code := code ++ [Ins.m "set" [.val tmpv, .val value]]
      let (code, n) ← binChain tmpv right n code
      return (code, tmpv, n)
    else
      return (code, value, n)
  | .unary o operand, n => do
    let (code, value, n) ← exprGet operand n
    if !(tyIn value.type Ty.NUM) then
      throw (.incompatibleTypes value.type Ty.NUM)
    let (tmpv, n) := tempVar Ty.NUM n
    -- NOTE (faithful to the source): every emitted operand is `tmpv`, the
    -- fresh temporary — not the operand's value — and the returned value is
    -- `value`, not `tmpv`.
    let code := code ++
      (match o with
       | "-" => [Ins.m "op" [.lit "sub", .val tmpv, .int 0, .val tmpv]]
       | "!" => [Ins.m "op" [.lit "notEqual", .val tmpv, .val tmpv, .lit "true"]]
       | "~" => [Ins.m "op" [.lit "not", .val tmpv, .val tmpv, .lit "_"]]
       | _ => [])
    return (code, value, n)

/-- Second loop of `BinaryOpNode.get`: evaluate each right-hand operand,
require its type to be inside `NUM` (no equality-class exemption here), and
fold into the accumulator temporary.  An operator token missing from
`OPERATORS` is a Python `KeyError` (`hostCrash`). -/
def binChain (tmpv : MVal) : List (String × Expr) → Nat → List Ins →
    Except GErr (List Ins × Nat)
  | [], n, code => .ok (code, n)
  | (o, node) :: rest, n, code => do
    let (vcode, value, n) ← exprGet node n
    if !(tyIn value.type Ty.NUM) then
      throw (.incompatibleTypes value.type Ty.NUM)
    match OPERATORS o with
    | none => throw .hostCrash
    | some opn =>
      binChain tmpv rest n
        (code ++ vcode ++ [Ins.m "op" [.lit opn, .val tmpv, .val tmpv, .val value]])

end

/-! ## Statement nodes (`node_rewrite.py`) -/

/-- `AssignmentNode.OPERATORS`: compound-assignment token → opcode. -/
def ASSIGN_OPERATORS : String → Option String
  | "+=" => some "add"
  | "-=" => some "sub"
  | "%=" => some "mod"
  | "&=" => some "and"
  | "|=" => some "or"
  | "^=" => some "xor"
  | "*=" => some "mul"
  | "/=" => some "div"
  | "**=" => some "pow"
  | "//=" => some "idiv"
  | "<<" => some "shl"
  | ">>" => some "shr"
  | _ => none

/-- Modelled from the spec: `constants.CONTROLLABLE` (`constants.py` is not
in the sources).  Per §4.3 it is the static set of "known controllable
attribute" names of a BLOCK-typed variable; the names mirror the `control.*`
native signatures visible in `node_rewrite.py`. -/
def CONTROLLABLE (s : String) : Bool :=
  s == "enabled" || s == "shoot" || s == "shootp" || s == "config" || s == "color"

abbrev Scopes := List (List (String × Binding))

/-- `DeclarationNode.generate`: error if the name already resolves, bind the
variable, then check the initializer with the `enum.Flag` subset test
`value.type not in self.var.type` and emit the SET. -/
def declarationGenerate (scopes : Scopes) (varTy : Ty) (varName : String)
    (varConst : Bool) (value : Option Expr) (n : Nat) :
    Except GErr (List Ins × Scopes × Nat) := do
  if (scopesGet scopes varName).isSome then
    throw (.alreadyDefinedVar varName)
  let scopes := scopesAdd scopes varName (.bvar (MVal.var varTy varName varConst))
  match value with
  | some value => do
    let (valueCode, v, n) ← exprGet value n
    if !(tyIn v.type varTy) then
      throw (.incompatibleTypes v.type varTy)
    return (valueCode ++ [Ins.m "set" [.val (MVal.var varTy varName varConst), .val v]], scopes, n)
  | none => return ([], scopes, n)

/-- `AssignmentNode.generate`: resolve the target; const targets reject any
write; plain `=` uses the `enum.Flag` subset test against the declared type;
compound assignments require both sides inside `NUM`; the
`ident.property = value` form with a controllable property lowers to a
CONTROL instruction. -/
def assignmentGenerate (scopes : Scopes) (varName : String) (op : String)
    (value : Expr) (n : Nat) : Except GErr (List Ins × Nat) := do
  match scopesGet scopes varName with
  | some (.bvar v) =>
    match v with
    | .var varTy name const => do
      if const then
        throw (.writeToConst varName)
      let (valueCode, value, n) ← exprGet value n
      if op == "=" then
        if !(tyIn value.type varTy) then
          throw (.incompatibleTypes value.type varTy)
        return (valueCode ++ [Ins.m "set" [.val (MVal.var varTy name const), .val value]], n)
      else
        if !(tyIn varTy Ty.NUM) then
          throw (.incompatibleTypes varTy Ty.NUM)
        if !(tyIn value.type Ty.NUM) then
          throw (.incompatibleTypes value.type Ty.NUM)
        match ASSIGN_OPERATORS op with
        | none => throw .hostCrash
        | some opn =>
          return (valueCode ++
            [Ins.m "op" [.lit opn, .val (MVal.var varTy name const),
                         .val (MVal.var varTy name const), .val value]], n)
    -- a non-Variable binding falls through to the attribute case below
    | _ => assignmentAttr scopes varName op value n
  | _ => assignmentAttr scopes varName op value n
where
  /-- The `ident.property` fallthrough of `AssignmentNode.generate`. -/
  assignmentAttr (scopes : Scopes) (varName : String) (op : String)
      (value : Expr) (n : Nat) : Except GErr (List Ins × Nat) := do
    match op == "=", strSplit varName '.' with
    | true, [objName, prop] =>
      if CONTROLLABLE prop then do
        let (valueCode, value, n) ← exprGet value n
        if value.type ≠ Ty.NUM then
          throw (.incompatibleTypes value.type Ty.NUM)
        match scopesGet scopes objName with
        | some (.bvar obj) =>
          match obj with
          | .var objTy _ _ =>
            if objTy ≠ Ty.BLOCK then
              throw (.incompatibleTypes objTy Ty.BLOCK)
            return (valueCode ++
              [Ins.m "control" [.lit prop, .val obj, .val value, .lit "_", .lit "_", .lit "_"]], n)
          | _ => throw (.incompatibleTypes obj.type Ty.BLOCK)
        | _ => throw (.undefinedVariable objName)
      else
        throw (.undefinedVariable varName)
    | _, _ => throw (.undefinedVariable varName)

/-- The argument-type check of `CallNode.generate`
(`node_rewrite.py:390`): an argument is rejected with `IncompatibleTypes`
unless its type is exactly equal to the declared parameter type
(`param_value.type != fun.params[i][1]`). -/
def callParamTypeOk (found expected : Ty) : Bool := found == expected

/-- `ReturnNode.generate`: a valueless return emits nothing; otherwise the
enclosing function is looked up, the value's type must be exactly equal to
the declared return type, and the value is stored into the per-function
return-value slot `__f_<name>_retv`.  No instruction touching `@counter` is
emitted here (contrast `Generator._generate`'s `ReturnNode` branch in
`generator.py`). -/
def returnGenerate (scopes : Scopes) (func : String) (value : Option Expr)
    (n : Nat) : Except GErr (List Ins × Nat) := do
  match value with
  | none => return ([], n)
  | some value => do
    let (valueCode, v, n) ← exprGet value n
    match scopesGet scopes func with
    | some (.bfun _ _ retTy) =>
      if v.type ≠ retTy then
        throw (.incompatibleTypes v.type retTy)
      return (valueCode ++
        [Ins.m "set" [.val (MVal.var v.type ("__f_" ++ func ++ "_retv") false), .val v]], n)
    | _ => throw (.undefinedFunction func)

/-- The `ReturnNode` branch of the older text-pipeline generator
(`generator.py`, `Generator._generate`): given the enclosing function name
and the generated (code, variable) of the return value, it emits the store
into `__f_<name>_retv` *and* `set @counter __f_<name>_ret`. -/
def genReturnValueOld (fname tmp var : String) : String × String :=
  (tmp ++ "\nset __f_" ++ fname ++ "_retv " ++ var ++ "\nset @counter __f_" ++ fname ++ "_ret",
   "__f_" ++ fname ++ "_retv")

/-! ## The text-pipeline optimizer (`generator.py`)

`Generator._precalc_optimize` works on a line-oriented instruction text.
Lines are modelled as strings; Python's `str.split(" ")` is `strSplit · ' '`
and bare `str.split()` (any-whitespace, used by `postprocess` and the
linker) is `pyTokens`. -/

/-- Python `str.split()` on space-separated text: split and drop empties. -/
def pyTokens (s : String) : List String := (strSplit s ' ').filter (fun t => t ≠ "")

/-- `[0-9]+`: a non-empty all-digit string. -/
def isDigits (s : String) : Bool := !s.data.isEmpty && s.data.all Char.isDigit

/-- The `NUM`-literal shape inside `GEN_REGEXES["MCALC"]`:
`[0-9]+(\.[0-9]+)?`. -/
def isNumLit (s : String) : Bool :=
  match strSplit s '.' with
  | [a] => isDigits a
  | [a, b] => isDigits a && isDigits b
  | _ => false

/-- `[a-zA-Z]+`, the opcode field of `MCALC`. -/
def isAlphaTok (s : String) : Bool := !s.data.isEmpty && s.data.all Char.isAlpha

/-- `[a-zA-Z_0-9@]+`, the destination field of `MCALC`. -/
def isNameTok (s : String) : Bool :=
  !s.data.isEmpty && s.data.all (fun c => c.isAlphanum || c == '_' || c == '@')

/-- Numeric value of an all-digit string. -/
def digitsVal (s : String) : Nat := s.data.foldl (fun n c => 10 * n + (c.toNat - 48)) 0

/-- The exact decimal value of a token matching the `NUM` shape.  Python's
`float(tok)` correctly rounds this value to a double; `precalcLine` consults
it only under the `floatRep` guard below, where the rounding is the
identity and the parsed double is exactly this rational. -/
def parseNumLit (s : String) : ℚ :=
  match strSplit s '.' with
  | [a] => (digitsVal a : ℚ)
  | [a, b] => (digitsVal a : ℚ) + (digitsVal b : ℚ) / ((10 : ℚ) ^ b.data.length)
  | _ => 0

/-- Conservative certificate that a rational is exactly representable as an
IEEE-754 double: its reduced denominator is a power of two no larger than
`2^53` and its numerator fits the 53-bit mantissa (`|num| ≤ 2^53`).  Such a
value is `num × 2^(-k)` with `num ≤ 2^53`, which a double holds exactly and
well inside the exponent range.  The test is deliberately conservative: a
`false` only ever sends the model to `unmodeled`, never to a claim about
the program. -/
def floatRep (q : ℚ) : Bool :=
  ((List.range 54).any fun k => q.den == 2 ^ k) && q.num.natAbs ≤ 2 ^ 53

/-- Outcome of applying one `PRECALC` host function to two parsed literals:
an exact value, an unhandled host exception (`ZeroDivisionError` /
`TypeError` / `ValueError`), or a result this model does not represent
exactly (irrational or rounding-dependent host floats). -/
inductive FoldRes where
  | val (q : ℚ)
  | hostErr
  | unmodeled
deriving DecidableEq, Repr

/-- Commit to an exactly computed fold result only when it is certified
double-representable: IEEE arithmetic is correctly rounded, so on certified
operands the host's computed double equals the exact rational precisely
when that rational is representable; when it is not, the host rounds and
the model abstains. -/
def exactVal (q : ℚ) : FoldRes :=
  if floatRep q then .val q else .unmodeled

/-- The `PRECALC` table of `generator.py`, applied to the two operands as
Python floats (the operands are certified by `floatRep` in `precalcLine`,
so they equal the parsed doubles).  `equal` and `notEqual` are deliberately
absent ("not implemented because they use type conversion"); an absent
opcode yields `none` and the line is left unchanged.  The bitwise and shift
entries always raise `TypeError` on float operands; division-family entries
raise `ZeroDivisionError` on a zero divisor; `log` of a non-positive
argument raises `ValueError`.  Rounded results go through `exactVal`;
comparisons, `land`, `max`, `min` and `abs` select an operand or a boolean
and are exact; `floor`/`ceil` return exact Python ints; `pow` goes through
the platform `libm` with no exactness guarantee and is therefore never
committed; `sqrt` is correctly rounded, hence exact iff the true square
root is representable. -/
def precalcFn : String → Option (ℚ → ℚ → FoldRes)
  | "add" => some fun a b => exactVal (a + b)
  | "sub" => some fun a b => exactVal (a - b)
  | "mul" => some fun a b => exactVal (a * b)
  | "div" => some fun a b => if b = 0 then .hostErr else exactVal (a / b)
  | "idiv" => some fun a b =>
      if b = 0 then .hostErr
      else if floatRep (a / b) then .val (⌊a / b⌋ : ℤ) else .unmodeled
  | "mod" => some fun a b =>
      if b = 0 then .hostErr
      else if 0 ≤ a ∧ 0 ≤ b ∧ floatRep (a - b * (⌊a / b⌋ : ℤ)) = true then
        .val (a - b * (⌊a / b⌋ : ℤ))
      else .unmodeled
  | "pow" => some fun _ _ => .unmodeled
  | "land" => some fun a b => .val (if a = 0 then a else b)
  | "lessThan" => some fun a b => .val (if a < b then 1 else 0)
  | "lessThanEq" => some fun a b => .val (if a ≤ b then 1 else 0)
  | "greaterThan" => some fun a b => .val (if b < a then 1 else 0)
  | "greaterThanEq" => some fun a b => .val (if b ≤ a then 1 else 0)
  | "strictEqual" => some fun a b => .val (if a = b then 1 else 0)
  | "shl" => some fun _ _ => .hostErr
  | "shr" => some fun _ _ => .hostErr
  | "or" => some fun _ _ => .hostErr
  | "and" => some fun _ _ => .hostErr
  | "xor" => some fun _ _ => .hostErr
  | "not" => some fun _ _ => .hostErr
  | "max" => some fun a b => .val (max a b)
  | "min" => some fun a b => .val (min a b)
  | "abs" => some fun a _ => .val |a|
  | "log" => some fun a _ => if a ≤ 0 then .hostErr else if a = 1 then .val 0 else .unmodeled
  | "log10" => some fun a _ => if a ≤ 0 then .hostErr else if a = 1 then .val 0 else .unmodeled
  | "floor" => some fun a _ => .val (⌊a⌋ : ℤ)
  | "ceil" => some fun a _ => .val (⌈a⌉ : ℤ)
  | "sqrt" => some fun a _ =>
      if a < 0 then .hostErr
      else if (Nat.sqrt a.num.toNat : ℚ) / (Nat.sqrt a.den : ℚ) *
              ((Nat.sqrt a.num.toNat : ℚ) / (Nat.sqrt a.den : ℚ)) = a &&
            floatRep ((Nat.sqrt a.num.toNat : ℚ) / (Nat.sqrt a.den : ℚ)) then
        .val ((Nat.sqrt a.num.toNat : ℚ) / (Nat.sqrt a.den : ℚ))
      else .unmodeled
  | _ => none

/-- Result of `_precalc_optimize` on one line. -/
inductive LineRes where
  | keep
  | repl (s : String)
  | crash
  | unmodeled
deriving DecidableEq, Repr

/-- One line of `Generator._precalc_optimize`: if the line matches
`GEN_REGEXES["MCALC"]` (`^op [a-zA-Z]+ [a-zA-Z_0-9@]+ NUM NUM$`) and the
opcode is in `PRECALC`, evaluate and replace with `set <name> <result>`,
where a result equal to its `int(...)` truncation is rendered as an integer
literal.  The model commits only when both literals are certified exactly
representable as doubles (`floatRep`), so that the host's parsed floats
coincide with the parsed rationals; otherwise it abstains (`unmodeled`). -/
def precalcLine (ln : String) : LineRes :=
  match strSplit ln ' ' with
  | [t0, t1, t2, t3, t4] =>
    if t0 == "op" && isAlphaTok t1 && isNameTok t2 && isNumLit t3 && isNumLit t4 then
      match precalcFn t1 with
      | some f =>
        if floatRep (parseNumLit t3) && floatRep (parseNumLit t4) then
          match f (parseNumLit t3) (parseNumLit t4) with
          | .val q =>
            if q.den = 1 then .repl ("set " ++ t2 ++ " " ++ toString q.num)
            else .unmodeled
          | .hostErr => .crash
          | .unmodeled => .unmodeled
        else .unmodeled
      | none => .keep
    else .keep
  | _ => .keep

/-- Result of `_precalc_optimize` on a whole line list. -/
inductive PrecalcOut where
  | ok (lines : List String)
  | crash
  | unmodeled
deriving DecidableEq, Repr

/-- `Generator._precalc_optimize` over the split lines, propagating an
unhandled host exception. -/
def precalcOptimize : List String → PrecalcOut
  | [] => .ok []
  | ln :: rest =>
    match precalcLine ln with
    | .keep =>
      match precalcOptimize rest with
      | .ok ls => .ok (ln :: ls)
      | e => e
    | .repl s =>
      match precalcOptimize rest with
      | .ok ls => .ok (s :: ls)
      | e => e
    | .crash => .crash
    | .unmodeled => .unmodeled

/-! ## `Generator.postprocess` (`generator.py`) -/

/-- `GEN_REGEXES["LABEL"]`: `^<[a-zA-Z_@][a-zA-Z_0-9]*$`. -/
def isLabelLine (ln : String) : Bool :=
  match ln.toList with
  | '<' :: c :: rest =>
    (c.isAlpha || c == '_' || c == '@') && rest.all (fun d => d.isAlphanum || d == '_')
  | _ => false

/-- The `ln = ln[1:]` native-code unprefixing at the top of the first
postprocess loop. -/
def stripDot (ln : String) : String := if strStartsWith ln "." then strDrop1 ln else ln

/-- A `set` line whose destination token equals its source token
(`spl[0] == "set" and spl[1] == spl[2]` on the whitespace-split line). -/
def isSetSelf (ln : String) : Bool :=
  match pyTokens ln with
  | t0 :: a :: b :: _ => t0 == "set" && a == b
  | _ => false

/-- A line on which the Python self-assignment check does not raise
`IndexError`: if its first whitespace token is `set` it has at least three
tokens. -/
def setLineWf (ln : String) : Bool :=
  match pyTokens ln with
  | t0 :: rest => !(t0 == "set") || decide (2 ≤ rest.length)
  | [] => true

/-- The first loop of `Generator.postprocess`: strip the native-code `.`
prefix, drop label lines (recording them for jump resolution), and drop
self-assignments `set X X`; everything else is kept in order.  A `set` line
with fewer than three tokens is an unhandled Python `IndexError`
(`Except.error`). -/
def postStrip : List String → Except Unit (List String)
  | [] => .ok []
  | ln :: rest =>
    let l := stripDot ln
    if isLabelLine l then postStrip rest
    else
      match pyTokens l with
      | t0 :: tl =>
        if t0 == "set" then
          match tl with
          | a :: b :: _ =>
            if a == b then postStrip rest
            else (postStrip rest).map (fun out => l :: out)
          | _ => .error ()
        else (postStrip rest).map (fun out => l :: out)
      | [] => (postStrip rest).map (fun out => l :: out)

/-- The last step of `Generator.postprocess`, applied to the split lines of
the resolved text: if the last line starts with the text `jump 0`, remove
it. -/
def postElide (lns : List String) : List String :=
  match lns.getLast? with
  | some last => if strStartsWith last "jump 0" then lns.dropLast else lns
  | none => lns

/-! ## The linker (`linker.py`)

`Linker.link` iterates the instruction stream; `MppInstructionLabel` and
`MppInstructionMacro` are consumed as pseudo-instructions and everything
else is rendered to text (`str(ins)`).  Host-evaluated `:`-prefixed macros
are outside the model; claims use plain macros only. -/

inductive LIns where
  | label (name : String)
  | mac (name value : String)
  | ins (text : String)
deriving DecidableEq, Repr

/-- Modelled from the spec: the rendering of the symbolic-jump
pseudo-instruction (`instruction.py` is absent from the sources).  Per §3 a
`SymbolicJump(target-label)` renders with its target label as a
whitespace-separated token, to be substituted by the linker's phase 2; an
unconditional jump carries the `always` condition. -/
def jumpRender (target : String) : String := "jump " ++ target ++ " always _ _"

/-- Python dict assignment `d[k] = v`: overwrite an existing key in place or
append a new one. -/
def dictSet (d : List (String × α)) (k : String) (v : α) : List (String × α) :=
  match d with
  | [] => [(k, v)]
  | (k₀, v₀) :: rest => if k₀ == k then (k, v) :: rest else (k₀, v₀) :: dictSet rest k v

/-- Phase-1 state of `Linker.link`: the label table, the macro table and
the macro-expanded instruction lines collected so far. -/
structure LinkState where
  labels : List (String × Nat)
  macros : List (String × String)
  instrs : List String
deriving DecidableEq, Repr

/-- The label table `Linker.link` starts from: the implicit entry label. -/
def linkInitLabels : List (String × Nat) := [("start", 0)]

/-- One iteration of the phase-1 loop of `Linker.link`: labels record the
current real-instruction count, macros record their expansion, and any
other non-empty instruction is appended with each of its whitespace tokens
substituted through the macro table accumulated so far. -/
def linkStep (st : LinkState) : LIns → LinkState
  | .label n => { st with labels := dictSet st.labels n st.instrs.length }
  | .mac n v => { st with macros := dictSet st.macros n v }
  | .ins t =>
    if t == "" then st
    else
      { st with
        instrs := st.instrs ++
          [strJoin " " ((pyTokens t).map (fun w => (st.macros.lookup w).getD w))] }

/-- Phase 1 of `Linker.link`. -/
def linkScan (code : List LIns) : LinkState :=
  code.foldl linkStep ⟨linkInitLabels, [], []⟩

/-- Phase-2 token substitution: `str(labels.get(word, word))` — a token
that is a known label becomes its line number, any other token is left
unchanged. -/
def resolveWord (labels : List (String × Nat)) (w : String) : String :=
  match labels.lookup w with
  | some n => toString n
  | none => w

/-- `Linker.link`: phase 1, then per-line label substitution, newline join
and final strip. -/
def linkerLink (code : List LIns) : String :=
  let st := linkScan code
  strTrim (strJoin "\n"
    (st.instrs.map (fun line =>
      strJoin " " ((pyTokens line).map (resolveWord st.labels)))))

/-- Whether an instruction mentions the given name among its operands or
targets (used to state that generated code never touches `@counter`). -/
def insMentions (s : String) : Ins → Bool
  | .m o params =>
    o == s || params.any fun p =>
      match p with
      | .val v => v.render == s
      | .lit l => l == s
      | .int _ => false
  | .label n => n == s
  | .jump t => t == s
  | .ojump t l _ r =>
    t == s ||
    (match l with | .val v => v.render == s | .lit a => a == s | .int _ => false) ||
    (match r with | .val v => v.render == s | .lit a => a == s | .int _ => false)

/-! ## Theorems -/

/-- **C3** — the code evaluated at the failing input: `UnaryOpNode.get` for
`-` applied to a NUM operand (the literal 5) emits
`op sub __tmp1 0 __tmp1` — both value operands are the *fresh, never
initialized* temporary, not the operand's value — and returns the original
operand value 5, not the instruction's result register, so the enclosing
expression receives `v` instead of `-v`. -/
theorem unaryOpGet_negation_returns_operand :
    exprGet (Expr.unary "-" (Expr.value (MVal.num 5))) 0 =
      Except.ok ([Ins.m "op" [.lit "sub", .val (MVal.var Ty.NUM "__tmp1" false), .int 0,
                              .val (MVal.var Ty.NUM "__tmp1" false)]], MVal.num 5, 1) ∧
    ([Ins.m "op" [MOperand.lit "sub", .val (MVal.var Ty.NUM "__tmp1" false), .int 0,
                  .val (MVal.var Ty.NUM "__tmp1" false)]].all
      fun i => !insMentions "5" i) = true := by
  exact ⟨rfl, by decide⟩

/-- **C5** — the code evaluated at the failing input: running the
constant-folding pass on `op div t 1 0` reaches `PRECALC["div"](1.0, 0.0)`,
an unhandled host `ZeroDivisionError` (modelled as `crash`), instead of
leaving the line unfolded or reporting a compile error. -/
theorem precalc_div_by_zero_crashes :
    precalcOptimize ["op div t 1 0"] = PrecalcOut.crash ∧
    precalcLine "op div t 1 0" = LineRes.crash := by
  constructor
  · with_unfolding_all decide
  · with_unfolding_all decide

/-- **C6 counterexample**: a stream whose jump targets the label `nope`,
defined by no `Label` pseudo-instruction, links *successfully*: no
`UnknownLabel` error exists in `Linker.link`, and the unresolved symbolic
name `nope` is emitted verbatim into the final text. -/
theorem linker_emits_unresolved_label :
    linkerLink [LIns.ins "set x 1", LIns.ins (jumpRender "nope")] =
      "set x 1\njump nope always _ _" := by
  decide

/-- **C8 counterexample**: the trailing-jump elision of
`Generator.postprocess` tests only `startswith("jump 0")`.  A program whose
last line is the *conditional* `jump 0 equal a true` — not an unconditional
jump to line 0 — still has that line elided; and a program ending in two
unconditional jumps to line 0 keeps one, so the final text can still end in
an unconditional jump-to-line-0. -/
theorem postElide_strips_conditional_jump :
    postElide ["set x 1", "jump 0 equal a true"] = ["set x 1"] ∧
    postElide ["jump 0 always _ _", "jump 0 always _ _"] = ["jump 0 always _ _"] := by
  constructor <;> decide

/-- **C4** — constant folding: `op add t 2 3` becomes `set t 5`;
`op mul t 2.5 2` becomes `set t 5` (integral normalization); a line whose
opcode is `equal` or `notEqual` is never folded (those opcodes are absent
from `PRECALC`); and in general a line matching the `MCALC` shape whose
literals are certified exactly double-representable and whose fold function
commits to the exact value `q` with `q.den = 1` is replaced by
`set <dest> <integer literal>`. -/
theorem precalc_folds_literal_operands :
    precalcOptimize ["op add t 2 3"] = PrecalcOut.ok ["set t 5"] ∧
    precalcOptimize ["op mul t 2.5 2"] = PrecalcOut.ok ["set t 5"] ∧
    (∀ ln o t2 t3 t4, (o = "equal" ∨ o = "notEqual") →
      strSplit ln ' ' = ["op", o, t2, t3, t4] → precalcLine ln = LineRes.keep) ∧
    (∀ ln o t2 t3 t4 f q, strSplit ln ' ' = ["op", o, t2, t3, t4] →
      isAlphaTok o = true → isNameTok t2 = true →
      isNumLit t3 = true → isNumLit t4 = true →
      floatRep (parseNumLit t3) = true → floatRep (parseNumLit t4) = true →
      precalcFn o = some f → f (parseNumLit t3) (parseNumLit t4) = FoldRes.val q →
      q.den = 1 →
      precalcLine ln = LineRes.repl ("set " ++ t2 ++ " " ++ toString q.num)) := by
  refine ⟨by with_unfolding_all decide, by with_unfolding_all decide, ?_, ?_⟩
  · rintro ln o t2 t3 t4 (rfl | rfl) hsplit <;>
    · unfold precalcLine
      rw [hsplit]
      cases hAlpha : isAlphaTok "equal" <;>
      cases hAlpha : isAlphaTok "notEqual" <;>
      cases hName : isNameTok t2 <;>
      cases hn3 : isNumLit t3 <;>
      cases hn4 : isNumLit t4 <;>
      simp [precalcFn, hName, hn3, hn4]
  · intro ln o t2 t3 t4 f q hsplit hAlpha hName hn3 hn4 hfr3 hfr4 hfn hval hden
    unfold precalcLine
    rw [hsplit]
    simp [hAlpha, hName, hn3, hn4, hfr3, hfr4, hfn, hval, hden]

/-- Witness for the equal-exemption clause of
`precalc_folds_literal_operands`, at the concrete line `op equal t 1 2`. -/
theorem precalc_folds_literal_operands_witness :
    precalcLine "op equal t 1 2" = LineRes.keep :=
  precalc_folds_literal_operands.2.2.1 "op equal t 1 2" "equal" "t" "1" "2"
    (Or.inl rfl) (by decide)

/-- `dictSet` at one key does not disturb lookups of another key. -/
theorem lookup_dictSet_ne {α : Type} (d : List (String × α)) (k k' : String) (v : α)
    (h : k ≠ k') : (dictSet d k v).lookup k' = d.lookup k' := by
  induction d with
  | nil =>
    have : (k' == k) = false := by simp [Ne.symm h]
    simp [dictSet, List.lookup, this]
  | cons hd tl ih =>
    obtain ⟨k₀, v₀⟩ := hd
    by_cases hk : k₀ = k
    · subst hk
      have : (k' == k₀) = false := by simp [Ne.symm h]
      simp [dictSet, List.lookup, this]
    · have : (k₀ == k) = false := by simp [hk]
      simp [dictSet, List.lookup, this, ih]

/-- The phase-1 fold of `Linker.link` never disturbs the `start` entry when
no label named `start` occurs in the stream. -/
theorem linkScan_foldl_start (code : List LIns) (st : LinkState)
    (h : ∀ n, LIns.label n ∈ code → n ≠ "start") :
    (code.foldl linkStep st).labels.lookup "start" = st.labels.lookup "start" := by
  induction code generalizing st with
  | nil => rfl
  | cons i rest ih =>
    rw [List.foldl_cons, ih _ (fun n hn => h n (List.mem_cons_of_mem _ hn))]
    cases i with
    | label n =>
      exact lookup_dictSet_ne st.labels n "start" _ (h n (List.mem_cons_self _ _))
    | mac n v => rfl
    | ins t =>
      show (linkStep st (LIns.ins t)).labels.lookup "start" = _
      simp only [linkStep]
      split <;> rfl

/-- **C10** — `Linker.link` pre-populates its label table with
`start -> 0`; consequently, when no `Label` named `start` occurs in the
stream, the phase-2 substitution maps every token `start` to `0`. -/
theorem linker_start_resolves_to_zero (code : List LIns)
    (h : ∀ n, LIns.label n ∈ code → n ≠ "start") :
    linkInitLabels = [("start", 0)] ∧
    (linkScan code).labels.lookup "start" = some 0 ∧
    resolveWord (linkScan code).labels "start" = "0" := by
  have hl : (linkScan code).labels.lookup "start" = some 0 := by
    rw [linkScan, linkScan_foldl_start code _ h]; rfl
  exact ⟨rfl, hl, by simp only [resolveWord, hl]; rfl⟩

/-- Witness for `linker_start_resolves_to_zero`: a stream that uses the
token `start` but defines only the label `L`. -/
theorem linker_start_resolves_to_zero_witness :
    (linkScan [LIns.ins "jump start always _ _", LIns.label "L"]).labels.lookup "start" =
      some 0 :=
  (linker_start_resolves_to_zero [LIns.ins "jump start always _ _", LIns.label "L"]
    (by intro n hn; simp at hn; subst hn; decide)).2.1

/-- **C6 (amended)** — `Linker.link` raises no error on an unresolved label:
a token that is no known label is left unchanged by the phase-2
substitution, and the full pipeline run on a stream whose jump targets the
undefined label `missing` emits the symbolic name verbatim. -/
theorem linker_unresolved_token_unchanged :
    (∀ (labels : List (String × Nat)) (w : String),
      labels.lookup w = none → resolveWord labels w = w) ∧
    linkerLink [LIns.ins "op add a b c", LIns.ins (jumpRender "missing")] =
      "op add a b c\njump missing always _ _" := by
  refine ⟨fun labels w h => by simp [resolveWord, h], by decide⟩

/-- Witness for `linker_unresolved_token_unchanged` at the initial label
table and the token `missing`. -/
theorem linker_unresolved_token_unchanged_witness :
    resolveWord [("start", 0)] "missing" = "missing" :=
  linker_unresolved_token_unchanged.1 [("start", 0)] "missing" rfl

/-- **C7 counterexample** — `ReturnNode.generate` of the rewrite pipeline,
run on `return 1` inside function `f` with declared return type NUM,
produces exactly one instruction: the store into `__f_f_retv`.  No emitted
instruction mentions `@counter`, so the return site does not transfer
control back to the caller. -/
theorem returnNode_emits_no_counter_write :
    returnGenerate [[("f", Binding.bfun "f" [] Ty.NUM)]] "f"
        (some (Expr.value (MVal.num 1))) 0 =
      Except.ok ([Ins.m "set" [.val (MVal.var Ty.NUM "__f_f_retv" false),
                               .val (MVal.num 1)]], 0) ∧
    ([Ins.m "set" [MOperand.val (MVal.var Ty.NUM "__f_f_retv" false),
                   MOperand.val (MVal.num 1)]].all
      fun i => !insMentions "@counter" i) = true :=
  ⟨rfl, by decide⟩

/-- String append is associative (component lists append associatively). -/
theorem strAppend_assoc (a b c : String) : a ++ b ++ c = a ++ (b ++ c) := by
  cases a with | mk la =>
  cases b with | mk lb =>
  cases c with | mk lc =>
  show String.mk (la ++ lb ++ lc) = String.mk (la ++ (lb ++ lc))
  rw [List.append_assoc]

/-- `Except.ok` bound by a continuation reduces to the continuation. -/
theorem except_bind_ok {ε α β : Type} (a : α) (f : α → Except ε β) :
    (Except.ok a : Except ε α) >>= f = f a := rfl

/-- **C7 (amended)** — in the rewrite pipeline a value return stores into
`__f_<name>_retv` and nothing more; the additional
`set @counter __f_<name>_ret` of the claim is emitted only by the older
statement-oriented pipeline (`Generator._generate`, `ReturnNode` branch),
whose output always ends in that program-counter store. -/
theorem returnGenerate_characterization (scopes : Scopes) (func fn : String)
    (ps : List (String × Ty)) (vexpr : Expr) (n n' : Nat) (vcode : List Ins) (v : MVal)
    (hget : exprGet vexpr n = Except.ok (vcode, v, n'))
    (hfun : scopesGet scopes func = some (Binding.bfun fn ps v.type)) :
    returnGenerate scopes func (some vexpr) n =
      Except.ok (vcode ++
        [Ins.m "set" [.val (MVal.var v.type ("__f_" ++ func ++ "_retv") false), .val v]],
        n') ∧
    ∀ fname tmp var, ∃ s, (genReturnValueOld fname tmp var).1 =
      s ++ ("\nset @counter __f_" ++ fname ++ "_ret") := by
  constructor
  · simp [returnGenerate, hget, hfun, except_bind_ok]
    rfl
  · intro fname tmp var
    refine ⟨tmp ++ "\nset __f_" ++ fname ++ "_retv " ++ var, ?_⟩
    simp only [genReturnValueOld, strAppend_assoc]

/-- Witness for `returnGenerate_characterization` at `return 2` inside a
function `g` returning NUM. -/
theorem returnGenerate_characterization_witness :
    returnGenerate [[("g", Binding.bfun "g" [] Ty.NUM)]] "g"
        (some (Expr.value (MVal.num 2))) 0 =
      Except.ok ([Ins.m "set" [.val (MVal.var Ty.NUM ("__f_" ++ "g" ++ "_retv") false),
                               .val (MVal.num 2)]], 0) :=
  (returnGenerate_characterization [[("g", Binding.bfun "g" [] Ty.NUM)]] "g" "g" []
    (Expr.value (MVal.num 2)) 0 0 [] (MVal.num 2) rfl rfl).1

/-- An error bound by a continuation stays the error. -/
theorem except_bind_err {ε α β : Type} (e : ε) (f : α → Except ε β) :
    (Except.error e : Except ε α) >>= f = Except.error e := rfl

/-- `pure` into `Except` is `Except.ok`. -/
theorem except_pure {ε α : Type} (a : α) : (pure a : Except ε α) = Except.ok a := rfl

/-- `throw` into `Except` is `Except.error`. -/
theorem except_throw {ε α : Type} (e : ε) : (throw e : Except ε α) = Except.error e := rfl

/-- Mapping over a thrown error keeps the error. -/
theorem except_map_throw {ε α β : Type} (e : ε) (f : α → β) :
    (f <$> (throw e : Except ε α)) = (Except.error e : Except ε β) := rfl

/-- Mapping does not change success. -/
theorem isOk_map {ε α β : Type} (f : α → β) (x : Except ε α) :
    isOk (f <$> x) = isOk x := by cases x <;> rfl

/-- `isOk` on a success. -/
theorem isOk_ok {ε α : Type} (a : α) : isOk (Except.ok a : Except ε α) = true := rfl

/-- `isOk` on an error. -/
theorem isOk_err {ε α : Type} (e : ε) : isOk (Except.error e : Except ε α) = false := rfl

/-- **C1 counterexample** — acceptance is not bare set-intersection: the
value type `NUM|NULL` intersects the declared type `NUM`, yet the
declaration initializer raises `IncompatibleTypes`; and at a parameter
binding site even `NUM` against declared `ANY` (non-empty intersection) is
rejected, because `CallNode.generate` compares with `!=`. -/
theorem assignment_rejects_intersecting_type :
    (tyAnd (tyOr Ty.NUM Ty.NULL) Ty.NUM ≠ Ty.zero ∧
      declarationGenerate [[]] Ty.NUM "x" false
        (some (Expr.value (MVal.var (tyOr Ty.NUM Ty.NULL) "v" false))) 0 =
        Except.error (GErr.incompatibleTypes (tyOr Ty.NUM Ty.NULL) Ty.NUM)) ∧
    (tyAnd Ty.NUM Ty.ANY ≠ Ty.zero ∧ callParamTypeOk Ty.NUM Ty.ANY = false) :=
  ⟨⟨by decide, by decide⟩, by decide, by decide⟩

/-- **C1 (amended)** — acceptance at a declaration initializer and at plain
assignment is the `enum.Flag` subset test (every bit of the value type lies
in the declared type); parameter binding and value return require exact
type equality.  The claim's examples survive: a BLOCK_TYPE value is
accepted for a declared ANY and rejected for a declared NUM. -/
theorem assignment_acceptance_is_subset_test (V T : Ty) :
    isOk (declarationGenerate [[]] T "x" false
      (some (Expr.value (MVal.var V "v" false))) 0) = tyIn V T ∧
    isOk (assignmentGenerate [[("x", Binding.bvar (MVal.var T "x" false))]] "x" "="
      (Expr.value (MVal.var V "v" false)) 0) = tyIn V T ∧
    callParamTypeOk V T = decide (V = T) ∧
    isOk (returnGenerate [[("f", Binding.bfun "f" [] T)]] "f"
      (some (Expr.value (MVal.var V "v" false))) 0) = decide (V = T) ∧
    tyIn Ty.BLOCK_TYPE Ty.ANY = true ∧ tyIn Ty.BLOCK_TYPE Ty.NUM = false := by
  refine ⟨?_, ?_, rfl, ?_, by decide, by decide⟩
  · cases h : tyIn V T <;>
      simp [declarationGenerate, scopesGet, scopesAdd, exprGet, MVal.type, h,
        except_bind_ok, except_bind_err, except_pure, except_throw, except_map_throw,
        isOk_ok, isOk_err]
  · cases h : tyIn V T <;>
      simp [assignmentGenerate, scopesGet, exprGet, MVal.type, h,
        except_bind_ok, except_bind_err, except_pure, except_throw, except_map_throw,
        isOk_ok, isOk_err, List.lookup]
  · by_cases h : V = T
    · subst h
      simp [returnGenerate, scopesGet, exprGet, MVal.type,
        except_bind_ok, except_bind_err, except_pure, except_throw, except_map_throw,
        isOk_ok, isOk_err, List.lookup]
    · simp [returnGenerate, scopesGet, exprGet, MVal.type,
        except_bind_ok, except_bind_err, except_pure, except_throw, except_map_throw,
        isOk_ok, isOk_err, List.lookup, h]

/-- **C2 counterexample** — the claim exempts equality-class operators from
the numeric restriction on right-hand operands, but `BinaryOpNode.get`
checks every right-hand operand against NUM unconditionally: evaluating
`1 == "a"` raises `IncompatibleTypes(STR, NUM)` although the operator is
equality-class. -/
theorem binary_chain_rejects_equality_operand :
    exprGet (Expr.binary (Expr.value (MVal.num 1)) [("==", Expr.value (MVal.str "a"))]) 0 =
      Except.error (GErr.incompatibleTypes Ty.STR Ty.NUM) := rfl

/-- `binFirstCheck` succeeds iff every applied operator is equality-class,
and otherwise raises `IncompatibleTypes` at the first operand's type. -/
theorem binFirstCheck_eq (t : Ty) (l : List (String × Expr)) :
    binFirstCheck t l =
      if l.all (fun p => EQUALITY p.1) then Except.ok ()
      else Except.error (GErr.incompatibleTypes t Ty.NUM) := by
  induction l with
  | nil => rfl
  | cons hd tl ih =>
    obtain ⟨o, e⟩ := hd
    cases h : EQUALITY o
    · simp [binFirstCheck, h]
    · show (if EQUALITY o = true then binFirstCheck t tl
            else Except.error (GErr.incompatibleTypes t Ty.NUM)) = _
      rw [h, ih]
      simp only [eq_self_iff_true, if_true, List.all_cons, h, Bool.true_and]

/-- The operand loop of `BinaryOpNode.get` over leaf operands succeeds iff
every right-hand operand's type lies inside NUM, independent of the
operator. -/
theorem binChain_leaf (tmpv : MVal) (rights : List (String × MVal)) (n : Nat)
    (code : List Ins) (hops : ∀ p ∈ rights, (OPERATORS p.1).isSome = true) :
    isOk (binChain tmpv (rights.map (fun p => (p.1, Expr.value p.2))) n code) =
      rights.all (fun p => tyIn p.2.type Ty.NUM) := by
  induction rights generalizing n code with
  | nil => rfl
  | cons hd tl ih =>
    obtain ⟨o, v⟩ := hd
    obtain ⟨opn, hopn⟩ :=
      Option.isSome_iff_exists.mp (hops (o, v) (List.mem_cons_self _ _))
    cases hv : tyIn v.type Ty.NUM
    · simp [binChain, exprGet, hv, except_bind_ok, except_bind_err, except_throw,
        isOk_err]
    · simp [binChain, exprGet, hv, except_bind_ok, except_pure, hopn,
        ih _ _ (fun p hp => hops p (List.mem_cons_of_mem _ hp))]

/-- Mapping operands into leaf nodes preserves the operator tokens. -/
theorem all_map_equality (rs : List (String × MVal)) :
    ((rs.map fun p => (p.1, Expr.value p.2)).all fun p => EQUALITY p.1) =
      rs.all fun p => EQUALITY p.1 := by
  induction rs with
  | nil => rfl
  | cons hd tl ih => simp [List.all_cons, ih]

/-- Binding a success continuation does not change success. -/
theorem isOk_bind_ok {ε α β : Type} (x : Except ε α) (f : α → β) :
    isOk (x >>= fun a => Except.ok (f a)) = isOk x := by
  cases x <;> rfl

/-- **C2 (amended)** — in a binary operator chain every operand after the
first must have a type inside NUM regardless of its operator; the
equality-class exemption applies only to the *first* operand: evaluation
succeeds iff (the first operand's type lies inside NUM, or every applied
operator is `==`/`!=`/`===`) and every right-hand operand's type lies
inside NUM. -/
theorem binary_chain_numeric_restriction (v0 : MVal) (rights : List (String × MVal))
    (hops : ∀ p ∈ rights, (OPERATORS p.1).isSome = true) :
    isOk (exprGet (Expr.binary (Expr.value v0)
        (rights.map (fun p => (p.1, Expr.value p.2)))) 0) =
      ((tyIn (MVal.type v0) Ty.NUM || rights.all (fun p => EQUALITY p.1)) &&
        rights.all (fun p => tyIn (MVal.type p.2) Ty.NUM)) := by
  rcases rights with _ | ⟨r, rs⟩
  · cases h0 : tyIn (MVal.type v0) Ty.NUM <;>
      simp [exprGet, h0, except_bind_ok, except_pure, isOk_ok]
  · have hbc := binChain_leaf (tempVar Ty.NUM 0).1 (r :: rs) (tempVar Ty.NUM 0).2
      [Ins.m "set" [MOperand.val (tempVar Ty.NUM 0).1, MOperand.val v0]] hops
    simp only [List.map_cons] at hbc
    cases h0 : tyIn (MVal.type v0) Ty.NUM
    · cases hall : ((r :: rs).all fun p => EQUALITY p.1)
      all_goals
        simp only [List.all_cons] at hall
        simp [exprGet, h0, hall, binFirstCheck_eq, all_map_equality, List.all_cons,
          except_bind_ok, except_bind_err, except_pure, except_throw,
          isOk_ok, isOk_err, isOk_map, isOk_bind_ok, hbc]
    · simp [exprGet, h0, except_bind_ok, except_pure, isOk_map, isOk_bind_ok, hbc]

/-- Witness for `binary_chain_numeric_restriction`: the chain
`"s" == 2` — a non-NUM first operand under an equality operator — is
accepted. -/
theorem binary_chain_numeric_restriction_witness :
    isOk (exprGet (Expr.binary (Expr.value (MVal.str "s"))
        ([("==", MVal.num 2)].map (fun p => (p.1, Expr.value p.2)))) 0) =
      ((tyIn (MVal.type (MVal.str "s")) Ty.NUM ||
          [("==", MVal.num 2)].all (fun p => EQUALITY p.1)) &&
        [("==", MVal.num 2)].all (fun p => tyIn (MVal.type p.2) Ty.NUM)) :=
  binary_chain_numeric_restriction (MVal.str "s") [("==", MVal.num 2)] (by decide)

/-- **C8 (amended)** — the trailing elision removes exactly the last line
when its text starts with `jump 0`, conditional or not; any other program
is unaffected by the step.  A program ending in the unconditional
`jump 0 always _ _` has that line removed. -/
theorem postElide_startswith_characterization :
    (∀ (lns : List String) (last : String), lns.getLast? = some last →
      strStartsWith last "jump 0" = true → postElide lns = lns.dropLast) ∧
    (∀ (lns : List String) (last : String), lns.getLast? = some last →
      strStartsWith last "jump 0" = false → postElide lns = lns) ∧
    postElide ["op add a b c", "jump 0 always _ _"] = ["op add a b c"] := by
  refine ⟨?_, ?_, by decide⟩
  · intro lns last hlast hsw
    simp [postElide, hlast, hsw]
  · intro lns last hlast hsw
    simp [postElide, hlast, hsw]

/-- Witness for `postElide_startswith_characterization` on a program that
does not end in a jump. -/
theorem postElide_startswith_characterization_witness :
    postElide ["set a 1", "print a"] = ["set a 1", "print a"] :=
  postElide_startswith_characterization.2.1 ["set a 1", "print a"] "print a"
    (by decide) (by decide)

/-- A line with no tokens is no self-assignment. -/
theorem isSetSelf_nil (ln : String) (hpt : pyTokens ln = []) :
    isSetSelf ln = false := by
  unfold isSetSelf; rw [hpt]

/-- A line whose first token is not `set` is no self-assignment. -/
theorem isSetSelf_head_ne (ln t0 : String) (tl0 : List String)
    (hpt : pyTokens ln = t0 :: tl0) (hset : (t0 == "set") = false) :
    isSetSelf ln = false := by
  unfold isSetSelf
  rw [hpt]
  rcases tl0 with _ | ⟨a, tl1⟩
  · rfl
  · rcases tl1 with _ | ⟨b, tl2⟩
    · rfl
    · simp [hset]

/-- The self-assignment test on a line with at least three tokens. -/
theorem isSetSelf_eq (ln t0 a b : String) (rest : List String)
    (hpt : pyTokens ln = t0 :: a :: b :: rest) :
    isSetSelf ln = (t0 == "set" && a == b) := by
  unfold isSetSelf; rw [hpt]

/-- The first postprocess loop equals a filter over the dot-stripped lines:
label lines and self-assignments are dropped, everything else is kept in
its original relative order. -/
theorem postStrip_eq (lines : List String)
    (h : ∀ ln ∈ lines, setLineWf (stripDot ln) = true) :
    postStrip lines = Except.ok ((lines.map stripDot).filter
      (fun l => !isLabelLine l && !isSetSelf l)) := by
  induction lines with
  | nil => rfl
  | cons hd tl ih =>
    have hwf := h hd (List.mem_cons_self _ _)
    have ihr := ih (fun ln hln => h ln (List.mem_cons_of_mem _ hln))
    cases hlab : isLabelLine (stripDot hd)
    · rcases hpt : pyTokens (stripDot hd) with _ | ⟨t0, tl0⟩
      · have hss := isSetSelf_nil _ hpt
        simp [postStrip, hlab, hpt, hss, ihr, List.filter_cons, Except.map]
      · cases hset : t0 == "set"
        · have hss := isSetSelf_head_ne _ _ _ hpt hset
          simp [postStrip, hlab, hpt, hset, hss, ihr, List.filter_cons, Except.map]
        · rcases tl0 with _ | ⟨a, tl1⟩
          · simp [setLineWf, hpt, hset] at hwf
          · rcases tl1 with _ | ⟨b, tl2⟩
            · simp [setLineWf, hpt, hset] at hwf
            · have hss := isSetSelf_eq _ _ _ _ _ hpt
              cases hab : a == b
              all_goals
                simp [postStrip, hlab, hpt, hset, hab, hss, ihr,
                  List.filter_cons, Except.map]
    · simp [postStrip, hlab, ihr, List.filter_cons]

/-- **C9** — the first loop of `Generator.postprocess` deletes every
self-assignment line `set X X` (destination token equal to source token)
and keeps all other (dot-stripped) non-label lines in their original
relative order: the loop is exactly a filter over the dot-stripped lines,
and no self-assignment survives into its output. -/
theorem postprocess_removes_self_assignments (lines : List String)
    (h : ∀ ln ∈ lines, setLineWf (stripDot ln) = true) :
    postStrip lines = Except.ok ((lines.map stripDot).filter
      (fun l => !isLabelLine l && !isSetSelf l)) ∧
    ∀ out, postStrip lines = Except.ok out → ∀ ln ∈ out, isSetSelf ln = false := by
  have he := postStrip_eq lines h
  refine ⟨he, ?_⟩
  intro out hout ln hln
  rw [he] at hout
  injection hout with hout
  subst hout
  have hp := List.of_mem_filter hln
  simp only [Bool.and_eq_true, Bool.not_eq_true'] at hp
  exact hp.2

/-- Witness for `postprocess_removes_self_assignments` on a stream holding
an op line, a label, a self-assignment and a native set line. -/
theorem postprocess_removes_self_assignments_witness :
    postStrip ["op add a b c", "<label1", "set x x", ".set y 1"] =
      Except.ok (((["op add a b c", "<label1", "set x x", ".set y 1"].map stripDot).filter
        (fun l => !isLabelLine l && !isSetSelf l))) :=
  (postprocess_removes_self_assignments
    ["op add a b c", "<label1", "set x x", ".set y 1"] (by decide)).1

end Mlogpp
